import Mathlib

/-!
# Course rewards client: verification of `client/src/App.js`

A shallow embedding of the React component `App` of `client/src/App.js`.

* The component's `useState` cells are the fields of `State`.
* Every handler (`connectWallet`, `createCourse`, `enrollInCourse`,
  `requestReward`, `approveReward`, the student-address `onChange`) is a function
  of the state captured by its closure and of the behaviour of its collaborators
  (`window.aptos`, the `AptosClient`). It returns, in the monad `Js`, the ordered
  trace of what it does: the state setters it calls and the calls it makes to the
  collaborators.
* The state after the handler has run is the captured state with the setter calls
  applied in order (`applyEffects`). A handler reads only the values captured by
  its closure, never the value it has just passed to a setter.

JavaScript strings are modelled by `String`. The two counters are JavaScript
numbers (IEEE-754 doubles) holding non-negative integers; they are modelled by the
`Nat` they hold, and the one arithmetic expression of the component,
`enrolledCount + 1`, by `jsAdd`: the exact sum rounded to the nearest double, ties
to even. `completionReward` is never computed with, only passed on.
-/

namespace Rewards

/-! ## Address normalisation (App.js lines 40 and 179) -/

/-- The JavaScript expression `x.replace(/^0x/, '')`: the regular expression has no
flags, so it matches the two characters `0x` (lower-case `x` only) at the very start
of the string, and `replace` removes that one match. -/
def replaceLeading0x (x : String) : String :=
  match x.data with
  | '0' :: 'x' :: rest => String.mk rest
  | _ => x

/-- The template literal `0x${x.replace(/^0x/, '')}` that `connectWallet` applies to
`account.address` (line 40) and the input handler applies to `e.target.value`
(line 179). -/
def canonicalize (x : String) : String :=
  "0x" ++ replaceLeading0x x

/-! ## Data -/

/-- The object stored by `setWallet` (lines 39-42). -/
structure Wallet where
  address : String
  publicKey : String
deriving DecidableEq

/-- One element of a payload's `arguments` array: a number (`completionReward`) or a
string (an address). -/
inductive Arg where
  | num (value : Nat)
  | str (value : String)
deriving DecidableEq

/-- The object literal handed to `window.aptos.signAndSubmitTransaction`. -/
structure Payload where
  type : String
  function : String
  type_arguments : List String
  arguments : List Arg
deriving DecidableEq

/-- The `useState` cells of `App` (lines 5-13). `wallet = none` is `null`;
`client = false` is `null`, `client = true` is the `AptosClient` instance. -/
structure State where
  wallet : Option Wallet
  client : Bool
  isConnected : Bool
  completionReward : Nat
  courseCreatorAddress : String
  studentAddress : String
  enrolledCount : Nat
  statusMessage : String
  isEnrolled : Bool
deriving DecidableEq

/-- The initial values given to `useState` (lines 5-13). -/
def initialState : State :=
  { wallet := none
    client := false
    isConnected := false
    completionReward := 100
    courseCreatorAddress := ""
    studentAddress := ""
    enrolledCount := 0
    statusMessage := ""
    isEnrolled := false }

def NODE_URL : String := "https://fullnode.devnet.aptoslabs.com"

def MODULE_ADDRESS : String :=
  "0xc8a52a71eb01c6b890bd0c7043a423d1e0beeffb41add865dc296ff0008c8982"

def MODULE_NAME : String := "Reward"

/-! ## Collaborators -/

/-- A thrown value, as the handlers see it: the text that `error.message` renders
in the `catch` block's template literal. -/
structure JsError where
  message : String
deriving DecidableEq

/-- What `window.aptos.account()` resolves to. -/
structure Account where
  address : String
  publicKey : String
deriving DecidableEq

/-- What `window.aptos.signAndSubmitTransaction(payload)` resolves to. -/
structure Response where
  hash : String
deriving DecidableEq

/-- The wallet provider `window.aptos`: each capability either resolves or throws. -/
structure AptosWallet where
  connect : Except JsError Unit
  account : Except JsError Account
  signAndSubmitTransaction : Payload → Except JsError Response

/-- Everything outside the component: the wallet extension (`aptos = none` when
`window.aptos` is undefined), the `AptosClient` constructor and its
`waitForTransaction`, and the engine-defined `TypeError` raised when a property is
read from `null` or from `undefined` (indexed by the property name). -/
structure Env where
  aptos : Option AptosWallet
  newAptosClient : String → Except JsError Unit
  waitForTransaction : String → Except JsError Unit
  nullRead : String → JsError
  undefinedRead : String → JsError

/-! ## Effects and the handler monad -/

/-- What a handler can do: call a state setter, or call a collaborator. -/
inductive Effect where
  | setWallet (value : Wallet)
  | setClient
  | setIsConnected (value : Bool)
  | setCourseCreatorAddress (value : String)
  | setStudentAddress (value : String)
  | setEnrolledCount (value : Nat)
  | setStatusMessage (value : String)
  | setIsEnrolled (value : Bool)
  | callNewAptosClient (url : String)
  | callConnect
  | callAccount
  | callSignAndSubmitTransaction (payload : Payload)
  | callWaitForTransaction (hash : String)
deriving DecidableEq

/-- A run of handler code: the effects performed, in order, and how the code
completed (normally with a value, or by throwing). -/
structure Js (α : Type) where
  effects : List Effect
  completion : Except JsError α

/-- Completing normally without any effect. -/
def Js.pure {α : Type} (a : α) : Js α :=
  { effects := [], completion := .ok a }

/-- Sequencing: the second part runs only if the first completed normally. -/
def Js.bind {α β : Type} (m : Js α) (f : α → Js β) : Js β :=
  match m.completion with
  | .error e => { effects := m.effects, completion := .error e }
  | .ok a => { effects := m.effects ++ (f a).effects, completion := (f a).completion }

/-- The statement `throw e`. -/
def Js.throw {α : Type} (e : JsError) : Js α :=
  { effects := [], completion := .error e }

/-- The statement `try { body } catch (error) { handler }`. -/
def Js.tryCatch {α : Type} (body : Js α) (handler : JsError → Js α) : Js α :=
  match body.completion with
  | .ok a => { effects := body.effects, completion := .ok a }
  | .error e =>
    { effects := body.effects ++ (handler e).effects, completion := (handler e).completion }

instance : Monad Js where
  pure := Js.pure
  bind := Js.bind

instance : MonadExcept JsError Js where
  throw := Js.throw
  tryCatch := Js.tryCatch

/-- Performing one effect. -/
def emit (e : Effect) : Js Unit :=
  { effects := [e], completion := .ok () }

/-- Performing one call to a collaborator and completing the way the call did. -/
def call {α : Type} (e : Effect) (result : Except JsError α) : Js α :=
  { effects := [e], completion := result }

/-- The state after one effect. Calls to collaborators leave the state alone. -/
def applyEffect (s : State) : Effect → State
  | .setWallet value => { s with wallet := some value }
  | .setClient => { s with client := true }
  | .setIsConnected value => { s with isConnected := value }
  | .setCourseCreatorAddress value => { s with courseCreatorAddress := value }
  | .setStudentAddress value => { s with studentAddress := value }
  | .setEnrolledCount value => { s with enrolledCount := value }
  | .setStatusMessage value => { s with statusMessage := value }
  | .setIsEnrolled value => { s with isEnrolled := value }
  | .callNewAptosClient _ => s
  | .callConnect => s
  | .callAccount => s
  | .callSignAndSubmitTransaction _ => s
  | .callWaitForTransaction _ => s

/-- The state after a trace of effects. -/
def applyEffects (s : State) (effects : List Effect) : State :=
  effects.foldl applyEffect s

/-- The state the component holds once the handler run `r`, started from the
captured state `s`, is over. -/
def stateAfter {α : Type} (s : State) (r : Js α) : State :=
  applyEffects s r.effects

/-- Whether an effect is a call to the wallet provider or to the RPC client. -/
def Effect.isCall : Effect → Bool
  | .callNewAptosClient _ => true
  | .callConnect => true
  | .callAccount => true
  | .callSignAndSubmitTransaction _ => true
  | .callWaitForTransaction _ => true
  | _ => false

/-- The calls a run made to the wallet provider and to the RPC client, in order. -/
def calls {α : Type} (r : Js α) : List Effect :=
  r.effects.filter Effect.isCall

/-- The requests a run handed to `signAndSubmitTransaction`, in order. -/
def signRequests {α : Type} (r : Js α) : List Payload :=
  r.effects.filterMap fun e =>
    match e with
    | .callSignAndSubmitTransaction payload => some payload
    | _ => none

/-! ## JavaScript number addition -/

/-- The number of low bits a non-negative integer `m` loses when it is stored in a
double: the least `e` with `m / 2 ^ e < 2 ^ 53` (a double has a 53-bit significand).
The first argument bounds the search and is given as `m` itself. -/
def binadeShift : Nat → Nat → Nat
  | 0, _ => 0
  | fuel + 1, m => if m < 2 ^ 53 then 0 else binadeShift fuel (m / 2) + 1

/-- The double nearest to the non-negative integer `m`, ties going to the even
significand (the IEEE-754 default rounding, which JavaScript uses). With `e` the
number of bits lost, the doubles around `m` are the multiples of `2 ^ e`: `m` goes
to the nearer of the two neighbours `q * 2 ^ e` and `(q + 1) * 2 ^ e`, and halfway
to the one whose significand is even. Integers up to `2 ^ 53` are kept as they are.
(From `2 ^ 1024` on a double is `Infinity`; adding `1` to a finite double never gets
there.) -/
def roundToDouble (m : Nat) : Nat :=
  let e := binadeShift m m
  let q := m / 2 ^ e
  let r := m % 2 ^ e
  if 2 * r < 2 ^ e then q * 2 ^ e
  else if 2 ^ e < 2 * r then (q + 1) * 2 ^ e
  else if q % 2 = 0 then q * 2 ^ e
  else (q + 1) * 2 ^ e

/-- The JavaScript expression `a + b` on numbers holding non-negative integers: the
exact sum, rounded to a double. -/
def jsAdd (a b : Nat) : Nat :=
  roundToDouble (a + b)

/-! ## The handlers of `App.js` -/

/-- The setter `setStatusMessage(value)`. -/
def setStatusMessage (value : String) : Js Unit :=
  emit (.setStatusMessage value)

/-- The expression `wallet.address`, with `wallet` the value captured by the
closure: a `TypeError` when `wallet` is `null`. -/
def walletAddress (env : Env) (wallet : Option Wallet) : Js String :=
  match wallet with
  | none => throw (env.nullRead "address")
  | some w => pure w.address

/-- The expression `await window.aptos.signAndSubmitTransaction(payload)`: a
`TypeError` when `window.aptos` is undefined, otherwise one call to the provider. -/
def signAndSubmitTransaction (env : Env) (payload : Payload) : Js Response :=
  match env.aptos with
  | none => throw (env.undefinedRead "signAndSubmitTransaction")
  | some aptos =>
    call (.callSignAndSubmitTransaction payload) (aptos.signAndSubmitTransaction payload)

/-- The expression `await client.waitForTransaction(hash)`: one call to the RPC
client. The guard of every caller has already found `client` to be non-null. -/
def waitForTransaction (env : Env) (hash : String) : Js Unit :=
  call (.callWaitForTransaction hash) (env.waitForTransaction hash)

/-- JavaScript truthiness of a string, as tested by `!courseCreatorAddress` and
`!studentAddress`: only the empty string is falsy. -/
def truthy (x : String) : Bool :=
  x != ""

/-- The `initClient` function run once by `useEffect` (lines 19-29). -/
def initClient (env : Env) : Js Unit :=
  try
    call (.callNewAptosClient NODE_URL) (env.newAptosClient NODE_URL)
    emit .setClient
  catch error =>
    setStatusMessage ("Error initializing client: " ++ error.message)

/-- The handler `connectWallet` (lines 31-48). The status message of line 44 reads
`wallet.address` from the closure, that is from the state `s` the handler was
created in, not from the object just given to `setWallet`. -/
def connectWallet (s : State) (env : Env) : Js Unit :=
  try
    match env.aptos with
    | none =>
      setStatusMessage "Petra Wallet extension not found! Please install it."
    | some aptos =>
      call .callConnect aptos.connect
      let account ← call .callAccount aptos.account
      emit (.setWallet
        { address := canonicalize account.address
          publicKey := account.publicKey })
      emit (.setIsConnected true)
      setStatusMessage ("Connected: " ++ (← walletAddress env s.wallet))
  catch error =>
    setStatusMessage ("Error connecting wallet: " ++ error.message)

/-- The payload literal of `createCourse` (lines 57-62). -/
def createCoursePayload (completionReward : Nat) : Payload :=
  { type := "entry_function_payload"
    function := MODULE_ADDRESS ++ "::" ++ MODULE_NAME ++ "::create_course"
    type_arguments := []
    arguments := [.num completionReward] }

/-- The handler `createCourse` (lines 50-70). -/
def createCourse (s : State) (env : Env) : Js Unit :=
  if !s.isConnected || !s.client then
    setStatusMessage "Please connect your wallet first"
  else
    try
      setStatusMessage "Creating course..."
      let payload := createCoursePayload s.completionReward
      let response ← signAndSubmitTransaction env payload
      waitForTransaction env response.hash
      emit (.setCourseCreatorAddress (← walletAddress env s.wallet))
      setStatusMessage ("Course created successfully! TX: " ++ response.hash)
    catch error =>
      setStatusMessage ("Error creating course: " ++ error.message)

/-- The payload literal of `enrollInCourse` (lines 79-84), given the value of
`wallet.address`. -/
def enrollPayload (address : String) : Payload :=
  { type := "entry_function_payload"
    function := MODULE_ADDRESS ++ "::" ++ MODULE_NAME ++ "::enroll"
    type_arguments := []
    arguments := [.str address] }

/-- The handler `enrollInCourse` (lines 72-93). -/
def enrollInCourse (s : State) (env : Env) : Js Unit :=
  if !s.isConnected || !s.client then
    setStatusMessage "Please connect your wallet first"
  else
    try
      setStatusMessage "Enrolling in course..."
      let payload := enrollPayload (← walletAddress env s.wallet)
      let response ← signAndSubmitTransaction env payload
      waitForTransaction env response.hash
      emit (.setIsEnrolled true)
      emit (.setEnrolledCount (jsAdd s.enrolledCount 1))
      setStatusMessage ("Enrolled successfully! TX: " ++ response.hash)
    catch error =>
      setStatusMessage ("Error enrolling in course: " ++ error.message)

/-- The payload literal of `requestReward` (lines 102-107). -/
def requestRewardPayload (courseCreatorAddress : String) : Payload :=
  { type := "entry_function_payload"
    function := MODULE_ADDRESS ++ "::" ++ MODULE_NAME ++ "::request_course_completion_reward"
    type_arguments := []
    arguments := [.str courseCreatorAddress] }

/-- The handler `requestReward` (lines 95-114). -/
def requestReward (s : State) (env : Env) : Js Unit :=
  if !s.isConnected || !s.client || !truthy s.courseCreatorAddress then
    setStatusMessage "Invalid course creator address or wallet not connected"
  else
    try
      setStatusMessage "Requesting reward..."
      let payload := requestRewardPayload s.courseCreatorAddress
      let response ← signAndSubmitTransaction env payload
      waitForTransaction env response.hash
      setStatusMessage ("Reward request submitted! TX: " ++ response.hash)
    catch error =>
      setStatusMessage ("Error requesting reward: " ++ error.message)

/-- The payload literal of `approveReward` (lines 123-128). -/
def approveRewardPayload (studentAddress : String) : Payload :=
  { type := "entry_function_payload"
    function := MODULE_ADDRESS ++ "::" ++ MODULE_NAME ++ "::approve_and_transfer_reward"
    type_arguments := []
    arguments := [.str studentAddress] }

/-- The handler `approveReward` (lines 116-135). -/
def approveReward (s : State) (env : Env) : Js Unit :=
  if !s.isConnected || !s.client || !truthy s.studentAddress then
    setStatusMessage "Invalid student address or wallet not connected"
  else
    try
      setStatusMessage "Approving reward transfer..."
      let payload := approveRewardPayload s.studentAddress
      let response ← signAndSubmitTransaction env payload
      waitForTransaction env response.hash
      setStatusMessage ("Reward approved and sent! TX: " ++ response.hash)
    catch error =>
      setStatusMessage ("Error approving reward: " ++ error.message)

/-- The `onChange` handler of the student-address input (line 179), given
`e.target.value`. -/
def onStudentAddressChange (value : String) : Js Unit :=
  emit (.setStudentAddress (canonicalize value))

/-- The four transaction handlers. -/
inductive Op where
  | createCourse
  | enrollInCourse
  | requestReward
  | approveReward
deriving DecidableEq

/-- Running one of the four transaction handlers. -/
def Op.run : Op → State → Env → Js Unit
  | .createCourse => Rewards.createCourse
  | .enrollInCourse => Rewards.enrollInCourse
  | .requestReward => Rewards.requestReward
  | .approveReward => Rewards.approveReward

/-! ## Vocabulary of the properties -/

/-- The status message each handler sets when its guard rejects the call
(lines 52, 74, 97 and 118). -/
def rejectedStatus : Op → String
  | .createCourse => "Please connect your wallet first"
  | .enrollInCourse => "Please connect your wallet first"
  | .requestReward => "Invalid course creator address or wallet not connected"
  | .approveReward => "Invalid student address or wallet not connected"

/-- The status message each handler sets in its `catch` block
(lines 68, 91, 112 and 133). -/
def failureStatus : Op → JsError → String
  | .createCourse, error => "Error creating course: " ++ error.message
  | .enrollInCourse, error => "Error enrolling in course: " ++ error.message
  | .requestReward, error => "Error requesting reward: " ++ error.message
  | .approveReward, error => "Error approving reward: " ++ error.message

/-- Whether a state gets past the guard at the top of a handler, that is whether
the `if` of line 51, 73, 96 or 117 is not taken. -/
def Op.passesGuard : Op → State → Bool
  | .createCourse, s => s.isConnected && s.client
  | .enrollInCourse, s => s.isConnected && s.client
  | .requestReward, s => s.isConnected && s.client && truthy s.courseCreatorAddress
  | .approveReward, s => s.isConnected && s.client && truthy s.studentAddress

/-- The ledger entry point each operation is specified to invoke. -/
def Op.functionName : Op → String
  | .createCourse => "create_course"
  | .enrollInCourse => "enroll"
  | .requestReward => "request_course_completion_reward"
  | .approveReward => "approve_and_transfer_reward"

/-- The one argument each operation is specified to pass: the completion reward,
the session address (absent while there is no session), the course creator address,
the student address. -/
def Op.argument : Op → State → Option Arg
  | .createCourse, s => some (.num s.completionReward)
  | .enrollInCourse, s => s.wallet.map fun w => .str w.address
  | .requestReward, s => some (.str s.courseCreatorAddress)
  | .approveReward, s => some (.str s.studentAddress)

/-- The request as specified: entry function `MODULE_ADDRESS::Reward::<name>`, no
type arguments, exactly one argument. -/
def specifiedRequest (name : String) (arg : Arg) : Payload :=
  { type := "entry_function_payload"
    function := MODULE_ADDRESS ++ "::Reward::" ++ name
    type_arguments := []
    arguments := [arg] }

/-! ## Sample collaborators and states -/

/-- A wallet extension holding the account `abc123` whose `signAndSubmitTransaction`
behaves as given. -/
def sampleWallet (sign : Payload → Except JsError Response) : AptosWallet :=
  { connect := .ok ()
    account := .ok { address := "abc123", publicKey := "0xkey" }
    signAndSubmitTransaction := sign }

/-- Collaborators that all succeed; every transaction gets the hash `0xa1`. -/
def sampleEnv : Env :=
  { aptos := some (sampleWallet fun _ => .ok { hash := "0xa1" })
    newAptosClient := fun _ => .ok ()
    waitForTransaction := fun _ => .ok ()
    nullRead := fun property => { message := "null has no property " ++ property }
    undefinedRead := fun property => { message := "undefined has no property " ++ property } }

/-- As `sampleEnv`, but the next transaction gets the hash `0xa2`. -/
def sampleEnvNext : Env :=
  { sampleEnv with aptos := some (sampleWallet fun _ => .ok { hash := "0xa2" }) }

/-- As `sampleEnv`, but the wallet rejects every submission. -/
def rejectingEnv : Env :=
  { sampleEnv with
    aptos := some (sampleWallet fun _ => .error { message := "User rejected the request" }) }

/-- As `sampleEnv`, but the wallet now holds the account `0xdef456`. -/
def otherAccountEnv : Env :=
  { sampleEnv with
    aptos := some
      { connect := .ok ()
        account := .ok { address := "0xdef456", publicKey := "0xkey2" }
        signAndSubmitTransaction := fun _ => .ok { hash := "0xa1" } } }

/-- The state once the component is mounted: `initClient` has run. -/
def mountedState : State :=
  stateAfter initialState (initClient sampleEnv)

/-- The state once `connectWallet` has run on the mounted component. -/
def connectedState : State :=
  stateAfter mountedState (connectWallet mountedState sampleEnv)

/-- The connected state after the user has typed a student address and then
cleared the input again: the last `onChange` carries the empty string. -/
def clearedInputState : State :=
  stateAfter connectedState (onStudentAddressChange "")

/-- The connected state after the user has typed the student address `b0b`. -/
def studentTypedState : State :=
  stateAfter connectedState (onStudentAddressChange "b0b")

/-- A connected state whose counter has reached `2 ^ 53 = 9007199254740992`, the
first integer whose successor is not a double. -/
def saturatedState : State :=
  { connectedState with enrolledCount := 9007199254740992 }

/-! ## Properties of the address normalisation -/

/-- Removing the leading `0x` from `0x` followed by `s` gives back `s`. -/
theorem replaceLeading0x_append (s : String) : replaceLeading0x ("0x" ++ s) = s := by
  cases s with
  | mk cs => rfl

/-- C7: the address normalisation used by `connectWallet` and by the student-address
input handler is idempotent: `canonicalize (canonicalize x) = canonicalize x` for
every string `x`. -/
theorem canonicalize_idempotent (x : String) :
    canonicalize (canonicalize x) = canonicalize x := by
  unfold canonicalize
  rw [replaceLeading0x_append]

/-- C8, refuted as stated: an upper-case prefix `0X` is not stripped. On the input
`0Xabc123` the normalisation yields `0x0Xabc123`, which is not `0xabc123`. -/
theorem canonicalize_upper_case_kept :
    canonicalize ("0X" ++ "abc123") = "0x0Xabc123" ∧
    canonicalize ("0X" ++ "abc123") ≠ "0x" ++ "abc123" := by
  decide

/-- C8, amended: the test for the prefix is case-sensitive. A leading lower-case `0x`
is stripped before one `0x` is prepended, `canonicalize ("0x" ++ s) = "0x" ++ s`,
while a leading upper-case `0X` is kept behind the new prefix,
`canonicalize ("0X" ++ s) = "0x0X" ++ s`. -/
theorem canonicalize_strips_lower_case_only (s : String) :
    canonicalize ("0x" ++ s) = "0x" ++ s ∧
    canonicalize ("0X" ++ s) = "0x0X" ++ s := by
  constructor
  · unfold canonicalize
    rw [replaceLeading0x_append]
  · cases s with
    | mk cs => rfl

/-! ## The trace of each handler past its guard -/

/-- The trace of `createCourse` past its guard, by outcome of the two calls. -/
theorem createCourse_effects (s : State) (env : Env) (aptos : AptosWallet)
    (hconn : s.isConnected = true) (hcl : s.client = true) (ha : env.aptos = some aptos) :
    (createCourse s env).effects =
      .setStatusMessage "Creating course..." ::
      .callSignAndSubmitTransaction (createCoursePayload s.completionReward) ::
      match aptos.signAndSubmitTransaction (createCoursePayload s.completionReward) with
      | .error e => [.setStatusMessage ("Error creating course: " ++ e.message)]
      | .ok response =>
        .callWaitForTransaction response.hash ::
        match env.waitForTransaction response.hash with
        | .error e => [.setStatusMessage ("Error creating course: " ++ e.message)]
        | .ok _ =>
          match s.wallet with
          | none =>
            [.setStatusMessage ("Error creating course: " ++ (env.nullRead "address").message)]
          | some w =>
            [.setCourseCreatorAddress w.address,
             .setStatusMessage ("Course created successfully! TX: " ++ response.hash)] := by
  rcases hs : aptos.signAndSubmitTransaction (createCoursePayload s.completionReward) with e | r
  · simp [createCourse, hconn, hcl, tryCatch, tryCatchThe, MonadExcept.tryCatch, Js.tryCatch,
      bind, Js.bind, setStatusMessage, emit, signAndSubmitTransaction, ha, call, hs]
  · rcases hw : env.waitForTransaction r.hash with e | u
    · simp [createCourse, hconn, hcl, tryCatch, tryCatchThe, MonadExcept.tryCatch, Js.tryCatch,
        bind, Js.bind, setStatusMessage, emit, signAndSubmitTransaction, waitForTransaction,
        ha, call, hs, hw]
    · rcases hwal : s.wallet with _ | w
      · simp [createCourse, hconn, hcl, tryCatch, tryCatchThe, MonadExcept.tryCatch,
          Js.tryCatch, bind, Js.bind, setStatusMessage, emit, signAndSubmitTransaction,
          waitForTransaction, walletAddress, ha, call, hs, hw, hwal, throw, throwThe,
          MonadExcept.throw, Js.throw]
      · simp [createCourse, hconn, hcl, tryCatch, tryCatchThe, MonadExcept.tryCatch,
          Js.tryCatch, bind, Js.bind, setStatusMessage, emit, signAndSubmitTransaction,
          waitForTransaction, walletAddress, ha, call, hs, hw, hwal, pure, Js.pure]

/-- The trace of `enrollInCourse` past its guard when there is a session, by outcome
of the two calls. -/
theorem enrollInCourse_effects (s : State) (env : Env) (aptos : AptosWallet) (w : Wallet)
    (hconn : s.isConnected = true) (hcl : s.client = true) (ha : env.aptos = some aptos)
    (hwal : s.wallet = some w) :
    (enrollInCourse s env).effects =
      .setStatusMessage "Enrolling in course..." ::
      .callSignAndSubmitTransaction (enrollPayload w.address) ::
      match aptos.signAndSubmitTransaction (enrollPayload w.address) with
      | .error e => [.setStatusMessage ("Error enrolling in course: " ++ e.message)]
      | .ok response =>
        .callWaitForTransaction response.hash ::
        match env.waitForTransaction response.hash with
        | .error e => [.setStatusMessage ("Error enrolling in course: " ++ e.message)]
        | .ok _ =>
          [.setIsEnrolled true, .setEnrolledCount (jsAdd s.enrolledCount 1),
           .setStatusMessage ("Enrolled successfully! TX: " ++ response.hash)] := by
  rcases hs : aptos.signAndSubmitTransaction (enrollPayload w.address) with e | r
  · simp [enrollInCourse, hconn, hcl, tryCatch, tryCatchThe, MonadExcept.tryCatch, Js.tryCatch,
      bind, Js.bind, setStatusMessage, emit, signAndSubmitTransaction, walletAddress, ha, call,
      hs, hwal, pure, Js.pure]
  · rcases hw : env.waitForTransaction r.hash with e | u
    · simp [enrollInCourse, hconn, hcl, tryCatch, tryCatchThe, MonadExcept.tryCatch,
        Js.tryCatch, bind, Js.bind, setStatusMessage, emit, signAndSubmitTransaction,
        waitForTransaction, walletAddress, ha, call, hs, hw, hwal, pure, Js.pure]
    · simp [enrollInCourse, hconn, hcl, tryCatch, tryCatchThe, MonadExcept.tryCatch,
        Js.tryCatch, bind, Js.bind, setStatusMessage, emit, signAndSubmitTransaction,
        waitForTransaction, walletAddress, ha, call, hs, hw, hwal, pure, Js.pure]

/-- The trace of `enrollInCourse` past its guard when `wallet` is `null`: building the
payload throws. -/
theorem enrollInCourse_effects_no_wallet (s : State) (env : Env)
    (hconn : s.isConnected = true) (hcl : s.client = true) (hwal : s.wallet = none) :
    (enrollInCourse s env).effects =
      [.setStatusMessage "Enrolling in course...",
       .setStatusMessage ("Error enrolling in course: " ++ (env.nullRead "address").message)] := by
  simp [enrollInCourse, hconn, hcl, tryCatch, tryCatchThe, MonadExcept.tryCatch, Js.tryCatch,
    bind, Js.bind, setStatusMessage, emit, walletAddress, hwal, throw, throwThe,
    MonadExcept.throw, Js.throw]

/-- The trace of `requestReward` past its guard, by outcome of the two calls. -/
theorem requestReward_effects (s : State) (env : Env) (aptos : AptosWallet)
    (hconn : s.isConnected = true) (hcl : s.client = true)
    (haddr : truthy s.courseCreatorAddress = true) (ha : env.aptos = some aptos) :
    (requestReward s env).effects =
      .setStatusMessage "Requesting reward..." ::
      .callSignAndSubmitTransaction (requestRewardPayload s.courseCreatorAddress) ::
      match aptos.signAndSubmitTransaction (requestRewardPayload s.courseCreatorAddress) with
      | .error e => [.setStatusMessage ("Error requesting reward: " ++ e.message)]
      | .ok response =>
        .callWaitForTransaction response.hash ::
        match env.waitForTransaction response.hash with
        | .error e => [.setStatusMessage ("Error requesting reward: " ++ e.message)]
        | .ok _ => [.setStatusMessage ("Reward request submitted! TX: " ++ response.hash)] := by
  rcases hs : aptos.signAndSubmitTransaction (requestRewardPayload s.courseCreatorAddress)
    with e | r
  · simp [requestReward, hconn, hcl, haddr, tryCatch, tryCatchThe, MonadExcept.tryCatch,
      Js.tryCatch, bind, Js.bind, setStatusMessage, emit, signAndSubmitTransaction, ha, call, hs]
  · rcases hw : env.waitForTransaction r.hash with e | u
    · simp [requestReward, hconn, hcl, haddr, tryCatch, tryCatchThe, MonadExcept.tryCatch,
        Js.tryCatch, bind, Js.bind, setStatusMessage, emit, signAndSubmitTransaction,
        waitForTransaction, ha, call, hs, hw]
    · simp [requestReward, hconn, hcl, haddr, tryCatch, tryCatchThe, MonadExcept.tryCatch,
        Js.tryCatch, bind, Js.bind, setStatusMessage, emit, signAndSubmitTransaction,
        waitForTransaction, ha, call, hs, hw]

/-- The trace of `approveReward` past its guard, by outcome of the two calls. -/
theorem approveReward_effects (s : State) (env : Env) (aptos : AptosWallet)
    (hconn : s.isConnected = true) (hcl : s.client = true)
    (haddr : truthy s.studentAddress = true) (ha : env.aptos = some aptos) :
    (approveReward s env).effects =
      .setStatusMessage "Approving reward transfer..." ::
      .callSignAndSubmitTransaction (approveRewardPayload s.studentAddress) ::
      match aptos.signAndSubmitTransaction (approveRewardPayload s.studentAddress) with
      | .error e => [.setStatusMessage ("Error approving reward: " ++ e.message)]
      | .ok response =>
        .callWaitForTransaction response.hash ::
        match env.waitForTransaction response.hash with
        | .error e => [.setStatusMessage ("Error approving reward: " ++ e.message)]
        | .ok _ => [.setStatusMessage ("Reward approved and sent! TX: " ++ response.hash)] := by
  rcases hs : aptos.signAndSubmitTransaction (approveRewardPayload s.studentAddress)
    with e | r
  · simp [approveReward, hconn, hcl, haddr, tryCatch, tryCatchThe, MonadExcept.tryCatch,
      Js.tryCatch, bind, Js.bind, setStatusMessage, emit, signAndSubmitTransaction, ha, call, hs]
  · rcases hw : env.waitForTransaction r.hash with e | u
    · simp [approveReward, hconn, hcl, haddr, tryCatch, tryCatchThe, MonadExcept.tryCatch,
        Js.tryCatch, bind, Js.bind, setStatusMessage, emit, signAndSubmitTransaction,
        waitForTransaction, ha, call, hs, hw]
    · simp [approveReward, hconn, hcl, haddr, tryCatch, tryCatchThe, MonadExcept.tryCatch,
        Js.tryCatch, bind, Js.bind, setStatusMessage, emit, signAndSubmitTransaction,
        waitForTransaction, ha, call, hs, hw]

/-- A handler whose guard rejects the call does nothing but set the status message. -/
theorem effects_of_guard_rejects (op : Op) (s : State) (env : Env)
    (h : op.passesGuard s = false) :
    (op.run s env).effects = [.setStatusMessage (rejectedStatus op)] := by
  cases op <;> cases hc : s.isConnected <;> cases hcl : s.client <;>
    simp_all [Op.passesGuard, Op.run, createCourse, enrollInCourse, requestReward,
      approveReward, rejectedStatus, setStatusMessage, emit]

/-! ## Guards -/

/-- C1: in every state with `isConnected = false`, each of `createCourse`,
`enrollInCourse`, `requestReward` and `approveReward` reports its not-connected
status, makes no call at all to the wallet provider or to the RPC client (so none to
`signAndSubmitTransaction` and none to `waitForTransaction`), and leaves every state
field but the status message as it was. -/
theorem not_connected_rejected (op : Op) (s : State) (env : Env)
    (h : s.isConnected = false) :
    (stateAfter s (op.run s env)).statusMessage = rejectedStatus op ∧
    calls (op.run s env) = [] ∧
    signRequests (op.run s env) = [] ∧
    stateAfter s (op.run s env) = { s with statusMessage := rejectedStatus op } := by
  have hg : op.passesGuard s = false := by
    cases op <;> simp [Op.passesGuard, h]
  have he := effects_of_guard_rejects op s env hg
  simp [stateAfter, calls, signRequests, he, applyEffects, applyEffect, Effect.isCall]

/-- An instance of `not_connected_rejected`: `approveReward` on the initial state. -/
theorem not_connected_rejected_witness :
    initialState.isConnected = false ∧
    (stateAfter initialState (Op.run .approveReward initialState sampleEnv)).statusMessage =
      "Invalid student address or wallet not connected" ∧
    calls (Op.run .approveReward initialState sampleEnv) = [] :=
  ⟨rfl, (not_connected_rejected .approveReward initialState sampleEnv rfl).1,
    (not_connected_rejected .approveReward initialState sampleEnv rfl).2.1⟩

/-- C5: in every connected state whose `courseCreatorAddress` is still the initial
empty string (no `createCourse` has succeeded), `requestReward` reports its
precondition failure, makes no call to `signAndSubmitTransaction` or
`waitForTransaction`, and leaves the state unchanged apart from the status message. -/
theorem requestReward_without_course (s : State) (env : Env)
    (_hconn : s.isConnected = true) (hempty : s.courseCreatorAddress = "") :
    (stateAfter s (requestReward s env)).statusMessage =
      "Invalid course creator address or wallet not connected" ∧
    calls (requestReward s env) = [] ∧
    signRequests (requestReward s env) = [] ∧
    stateAfter s (requestReward s env) =
      { s with statusMessage := "Invalid course creator address or wallet not connected" } := by
  have hg : Op.passesGuard .requestReward s = false := by
    simp [Op.passesGuard, hempty, truthy]
  have he := effects_of_guard_rejects .requestReward s env hg
  simp only [Op.run, rejectedStatus] at he
  simp [stateAfter, calls, signRequests, he, applyEffects, applyEffect, Effect.isCall]

/-- An instance of `requestReward_without_course`: the state right after connecting. -/
theorem requestReward_without_course_witness :
    connectedState.isConnected = true ∧ connectedState.courseCreatorAddress = "" ∧
    calls (requestReward connectedState sampleEnv) = [] ∧
    stateAfter connectedState (requestReward connectedState sampleEnv) =
      { connectedState with
        statusMessage := "Invalid course creator address or wallet not connected" } :=
  ⟨rfl, rfl, (requestReward_without_course connectedState sampleEnv rfl rfl).2.1,
    (requestReward_without_course connectedState sampleEnv rfl rfl).2.2.2⟩

/-! ## Failed dispatch -/

/-- The shape shared by the four traces: a start message, the submission, and then
either the failure message or the wait followed by the failure message or by the
effects of success. If the submitted request fails, only the status message moves. -/
theorem applyEffects_of_failed_dispatch (s : State) (env : Env) (aptos : AptosWallet)
    (effects : List Effect) (start : String) (payload p : Payload) (e : JsError)
    (failure : JsError → String) (success : Response → List Effect)
    (hsuccess : ∀ r, Effect.callSignAndSubmitTransaction p ∉ success r)
    (he : effects =
      .setStatusMessage start ::
      .callSignAndSubmitTransaction payload ::
      match aptos.signAndSubmitTransaction payload with
      | .error e => [.setStatusMessage (failure e)]
      | .ok response =>
        .callWaitForTransaction response.hash ::
        match env.waitForTransaction response.hash with
        | .error e => [.setStatusMessage (failure e)]
        | .ok _ => success response)
    (hcall : Effect.callSignAndSubmitTransaction p ∈ effects)
    (hfail : aptos.signAndSubmitTransaction p = .error e ∨
      ∃ r, aptos.signAndSubmitTransaction p = .ok r ∧
        env.waitForTransaction r.hash = .error e) :
    applyEffects s effects = { s with statusMessage := failure e } := by
  subst he
  rcases hs : aptos.signAndSubmitTransaction payload with e1 | r
  · simp [hs] at hcall
    subst hcall
    simp [hs] at hfail
    subst hfail
    simp [hs, applyEffects, applyEffect]
  · rcases hw : env.waitForTransaction r.hash with e1 | u
    · simp [hs, hw] at hcall
      subst hcall
      simp [hs, hw] at hfail
      subst hfail
      simp [hs, hw, applyEffects, applyEffect]
    · simp [hs, hw, hsuccess r] at hcall
      subst hcall
      simp [hs, hw] at hfail

/-- C2: take a connected state and any of the four handlers, and suppose the
dispatch fails: the handler hands `p` to `signAndSubmitTransaction` and either that
call throws `e`, or it resolves and `waitForTransaction` on its hash throws `e`.
Then the state after the call is the state before it with only the status message
changed (so `courseCreatorAddress`, `completionReward`, `enrolledCount` and
`isEnrolled` are as before), and the status message carries the message of `e`. -/
theorem dispatch_failure_keeps_state (op : Op) (s : State) (env : Env)
    (aptos : AptosWallet) (p : Payload) (e : JsError)
    (hconn : s.isConnected = true)
    (haptos : env.aptos = some aptos)
    (hcall : Effect.callSignAndSubmitTransaction p ∈ (op.run s env).effects)
    (hfail : aptos.signAndSubmitTransaction p = .error e ∨
      ∃ r, aptos.signAndSubmitTransaction p = .ok r ∧
        env.waitForTransaction r.hash = .error e) :
    stateAfter s (op.run s env) = { s with statusMessage := failureStatus op e } := by
  have hg : op.passesGuard s = true := by
    by_contra hg
    rw [Bool.not_eq_true] at hg
    rw [effects_of_guard_rejects op s env hg] at hcall
    simp at hcall
  cases op
  · simp only [Op.passesGuard, Bool.and_eq_true] at hg
    exact applyEffects_of_failed_dispatch s env aptos _ _ _ p e
      (fun e => "Error creating course: " ++ e.message) _
      (fun r => by cases s.wallet <;> simp)
      (createCourse_effects s env aptos hconn hg.2 haptos) hcall hfail
  · simp only [Op.passesGuard, Bool.and_eq_true] at hg
    rcases Option.eq_none_or_eq_some s.wallet with hwal | ⟨w, hwal⟩
    · simp only [Op.run] at hcall
      rw [enrollInCourse_effects_no_wallet s env hconn hg.2 hwal] at hcall
      simp at hcall
    · exact applyEffects_of_failed_dispatch s env aptos _ _ _ p e
        (fun e => "Error enrolling in course: " ++ e.message) _
        (fun r => by simp)
        (enrollInCourse_effects s env aptos w hconn hg.2 haptos hwal) hcall hfail
  · simp only [Op.passesGuard, Bool.and_eq_true] at hg
    exact applyEffects_of_failed_dispatch s env aptos _ _ _ p e
      (fun e => "Error requesting reward: " ++ e.message) _
      (fun r => by simp)
      (requestReward_effects s env aptos hconn hg.1.2 hg.2 haptos) hcall hfail
  · simp only [Op.passesGuard, Bool.and_eq_true] at hg
    exact applyEffects_of_failed_dispatch s env aptos _ _ _ p e
      (fun e => "Error approving reward: " ++ e.message) _
      (fun r => by simp)
      (approveReward_effects s env aptos hconn hg.1.2 hg.2 haptos) hcall hfail

/-- An instance of `dispatch_failure_keeps_state`: the wallet rejects the submission of
`approveReward`. -/
theorem dispatch_failure_keeps_state_witness :
    studentTypedState.isConnected = true ∧
    Effect.callSignAndSubmitTransaction (approveRewardPayload "0xb0b") ∈
      (Op.run .approveReward studentTypedState rejectingEnv).effects ∧
    stateAfter studentTypedState (Op.run .approveReward studentTypedState rejectingEnv) =
      { studentTypedState with
        statusMessage := "Error approving reward: User rejected the request" } :=
  ⟨rfl, by decide,
    dispatch_failure_keeps_state .approveReward studentTypedState rejectingEnv
      (sampleWallet fun _ => .error { message := "User rejected the request" })
      (approveRewardPayload "0xb0b") { message := "User rejected the request" }
      rfl rfl (by decide) (Or.inl rfl)⟩

/-! ## Successful dispatch -/

/-- C3: in every connected state with session address `a` (`wallet.address`) and
reward `r` held in `completionReward`, when the submission of `createCourse` and the
wait for finality both succeed, the resulting state has `courseCreatorAddress = a`,
`completionReward` still `r`, and `enrolledCount` and `isEnrolled` unchanged: it is
the state before with `courseCreatorAddress` and the status message replaced. -/
theorem createCourse_success (s : State) (env : Env) (aptos : AptosWallet) (w : Wallet)
    (r : Nat) (response : Response)
    (hconn : s.isConnected = true) (hclient : s.client = true)
    (hwallet : s.wallet = some w) (hreward : s.completionReward = r)
    (haptos : env.aptos = some aptos)
    (hsign : aptos.signAndSubmitTransaction (createCoursePayload r) = .ok response)
    (hwait : env.waitForTransaction response.hash = .ok ()) :
    (stateAfter s (createCourse s env)).courseCreatorAddress = w.address ∧
    (stateAfter s (createCourse s env)).completionReward = r ∧
    (stateAfter s (createCourse s env)).enrolledCount = s.enrolledCount ∧
    (stateAfter s (createCourse s env)).isEnrolled = s.isEnrolled ∧
    stateAfter s (createCourse s env) =
      { s with
        courseCreatorAddress := w.address
        statusMessage := "Course created successfully! TX: " ++ response.hash } := by
  subst hreward
  have he := createCourse_effects s env aptos hconn hclient haptos
  simp only [hsign, hwait, hwallet] at he
  simp [stateAfter, he, applyEffects, applyEffect]

/-- An instance of `createCourse_success`: reward `100`, session address `0xabc123`. -/
theorem createCourse_success_witness :
    connectedState.isConnected = true ∧ connectedState.client = true ∧
    connectedState.completionReward = 100 ∧
    (stateAfter connectedState (createCourse connectedState sampleEnv)).courseCreatorAddress =
      "0xabc123" ∧
    (stateAfter connectedState (createCourse connectedState sampleEnv)).completionReward =
      100 :=
  ⟨rfl, rfl, rfl,
    (createCourse_success connectedState sampleEnv
      (sampleWallet fun _ => .ok { hash := "0xa1" })
      { address := "0xabc123", publicKey := "0xkey" } 100 { hash := "0xa1" }
      rfl rfl rfl rfl rfl rfl rfl).1,
    (createCourse_success connectedState sampleEnv
      (sampleWallet fun _ => .ok { hash := "0xa1" })
      { address := "0xabc123", publicKey := "0xkey" } 100 { hash := "0xa1" }
      rfl rfl rfl rfl rfl rfl rfl).2.1⟩

/-- One successful `enrollInCourse`: `isEnrolled` becomes `true`, `enrolledCount`
becomes the JavaScript sum `enrolledCount + 1`, the status message reports the hash,
nothing else moves. -/
theorem enrollInCourse_success (s : State) (env : Env) (aptos : AptosWallet) (w : Wallet)
    (response : Response)
    (hconn : s.isConnected = true) (hclient : s.client = true)
    (hwallet : s.wallet = some w) (haptos : env.aptos = some aptos)
    (hsign : aptos.signAndSubmitTransaction (enrollPayload w.address) = .ok response)
    (hwait : env.waitForTransaction response.hash = .ok ()) :
    stateAfter s (enrollInCourse s env) =
      { s with
        isEnrolled := true
        enrolledCount := jsAdd s.enrolledCount 1
        statusMessage := "Enrolled successfully! TX: " ++ response.hash } := by
  have he := enrollInCourse_effects s env aptos w hconn hclient haptos hwallet
  simp only [hsign, hwait] at he
  simp [stateAfter, he, applyEffects, applyEffect]

/-- Below `2 ^ 53` no bit is lost. -/
theorem binadeShift_of_lt (fuel m : Nat) (h : m < 2 ^ 53) : binadeShift fuel m = 0 := by
  cases fuel with
  | zero => rfl
  | succ k =>
    unfold binadeShift
    rw [if_pos h]

/-- Every integer up to `2 ^ 53` is a double. -/
theorem roundToDouble_of_le (m : Nat) (h : m ≤ 2 ^ 53) : roundToDouble m = m := by
  rcases Nat.lt_or_eq_of_le h with h | h
  · unfold roundToDouble
    rw [binadeShift_of_lt m m h]
    simp [Nat.mod_one]
  · subst h
    decide

/-- JavaScript addition is exact as long as the sum stays within `2 ^ 53`. -/
theorem jsAdd_of_le (a b : Nat) (h : a + b ≤ 2 ^ 53) : jsAdd a b = a + b :=
  roundToDouble_of_le (a + b) h

/-- C4, refuted as stated: in the connected state with
`enrolledCount = 9007199254740992` (that is `2 ^ 53`) a successful `enrollInCourse`
sets `isEnrolled` but leaves `enrolledCount` at `9007199254740992`, because the
JavaScript sum `9007199254740992 + 1` rounds back to `9007199254740992`; a second
successful call leaves it there again. The count is neither `n + 1` nor `n + 2`. -/
theorem enrollInCourse_count_stalls :
    saturatedState.isConnected = true ∧ saturatedState.client = true ∧
    saturatedState.enrolledCount = 9007199254740992 ∧
    (stateAfter saturatedState (enrollInCourse saturatedState sampleEnv)).isEnrolled = true ∧
    (stateAfter saturatedState (enrollInCourse saturatedState sampleEnv)).enrolledCount =
      9007199254740992 ∧
    (stateAfter saturatedState (enrollInCourse saturatedState sampleEnv)).enrolledCount ≠
      9007199254740992 + 1 ∧
    (stateAfter (stateAfter saturatedState (enrollInCourse saturatedState sampleEnv))
      (enrollInCourse (stateAfter saturatedState (enrollInCourse saturatedState sampleEnv))
        sampleEnvNext)).enrolledCount ≠ 9007199254740992 + 2 := by
  decide

/-- C4, amended: in every connected state with `enrolledCount = n`, one successful
`enrollInCourse` gives `isEnrolled = true`, and a second successful
`enrollInCourse`, run on that resulting state, gives `isEnrolled = true` again;
`courseCreatorAddress` and `completionReward` are the same in all three states.
Provided `n + 2 ≤ 2 ^ 53`, so that both sums are computed exactly, `enrolledCount`
is `n + 1` after the first call and `n + 2` after the second. -/
theorem enrollInCourse_twice (s : State) (env₁ env₂ : Env) (aptos₁ aptos₂ : AptosWallet)
    (w : Wallet) (n : Nat) (response₁ response₂ : Response)
    (hconn : s.isConnected = true) (hclient : s.client = true)
    (hwallet : s.wallet = some w) (hcount : s.enrolledCount = n)
    (haptos₁ : env₁.aptos = some aptos₁)
    (hsign₁ : aptos₁.signAndSubmitTransaction (enrollPayload w.address) = .ok response₁)
    (hwait₁ : env₁.waitForTransaction response₁.hash = .ok ())
    (haptos₂ : env₂.aptos = some aptos₂)
    (hsign₂ : aptos₂.signAndSubmitTransaction (enrollPayload w.address) = .ok response₂)
    (hwait₂ : env₂.waitForTransaction response₂.hash = .ok ()) :
    (stateAfter s (enrollInCourse s env₁)).isEnrolled = true ∧
    (stateAfter s (enrollInCourse s env₁)).courseCreatorAddress = s.courseCreatorAddress ∧
    (stateAfter s (enrollInCourse s env₁)).completionReward = s.completionReward ∧
    (stateAfter (stateAfter s (enrollInCourse s env₁))
      (enrollInCourse (stateAfter s (enrollInCourse s env₁)) env₂)).isEnrolled = true ∧
    (stateAfter (stateAfter s (enrollInCourse s env₁))
      (enrollInCourse (stateAfter s (enrollInCourse s env₁)) env₂)).courseCreatorAddress =
        s.courseCreatorAddress ∧
    (stateAfter (stateAfter s (enrollInCourse s env₁))
      (enrollInCourse (stateAfter s (enrollInCourse s env₁)) env₂)).completionReward =
        s.completionReward ∧
    (n + 2 ≤ 2 ^ 53 →
      (stateAfter s (enrollInCourse s env₁)).enrolledCount = n + 1 ∧
      (stateAfter (stateAfter s (enrollInCourse s env₁))
        (enrollInCourse (stateAfter s (enrollInCourse s env₁)) env₂)).enrolledCount =
          n + 2) := by
  subst hcount
  have h₁ := enrollInCourse_success s env₁ aptos₁ w response₁ hconn hclient hwallet haptos₁
    hsign₁ hwait₁
  have h₂ := enrollInCourse_success (stateAfter s (enrollInCourse s env₁)) env₂ aptos₂ w
    response₂ (by rw [h₁]; exact hconn) (by rw [h₁]; exact hclient) (by rw [h₁]; exact hwallet)
    haptos₂ hsign₂ hwait₂
  rw [h₂, h₁]
  refine ⟨rfl, rfl, rfl, rfl, rfl, rfl, ?_⟩
  intro hsafe
  have e₁ : jsAdd s.enrolledCount 1 = s.enrolledCount + 1 :=
    jsAdd_of_le s.enrolledCount 1 (by omega)
  have e₂ : jsAdd (s.enrolledCount + 1) 1 = s.enrolledCount + 2 :=
    jsAdd_of_le (s.enrolledCount + 1) 1 (by omega)
  simp only [e₁, e₂, and_self]

/-- An instance of `enrollInCourse_twice`: two enrolments starting from a count of `0`. -/
theorem enrollInCourse_twice_witness :
    connectedState.isConnected = true ∧ connectedState.enrolledCount = 0 ∧
    0 + 2 ≤ 2 ^ 53 ∧
    (stateAfter connectedState (enrollInCourse connectedState sampleEnv)).enrolledCount =
      0 + 1 ∧
    (stateAfter (stateAfter connectedState (enrollInCourse connectedState sampleEnv))
      (enrollInCourse (stateAfter connectedState (enrollInCourse connectedState sampleEnv))
        sampleEnvNext)).enrolledCount = 0 + 2 :=
  ⟨rfl, rfl, by decide,
    (enrollInCourse_twice connectedState sampleEnv sampleEnvNext
      (sampleWallet fun _ => .ok { hash := "0xa1" })
      (sampleWallet fun _ => .ok { hash := "0xa2" })
      { address := "0xabc123", publicKey := "0xkey" } 0 { hash := "0xa1" } { hash := "0xa2" }
      rfl rfl rfl rfl rfl rfl rfl rfl rfl rfl).2.2.2.2.2.2 (by decide)⟩

/-! ## The request handed to the wallet -/

/-- The payload literal of `createCourse` is the specified request. -/
theorem createCoursePayload_eq (r : Nat) :
    createCoursePayload r = specifiedRequest "create_course" (.num r) := by
  simp only [createCoursePayload, specifiedRequest, Payload.mk.injEq, and_true, true_and]
  decide

/-- The payload literal of `enrollInCourse` is the specified request. -/
theorem enrollPayload_eq (a : String) :
    enrollPayload a = specifiedRequest "enroll" (.str a) := by
  simp only [enrollPayload, specifiedRequest, Payload.mk.injEq, and_true, true_and]
  decide

/-- The payload literal of `requestReward` is the specified request. -/
theorem requestRewardPayload_eq (a : String) :
    requestRewardPayload a = specifiedRequest "request_course_completion_reward" (.str a) := by
  simp only [requestRewardPayload, specifiedRequest, Payload.mk.injEq, and_true, true_and]
  decide

/-- The payload literal of `approveReward` is the specified request. -/
theorem approveRewardPayload_eq (a : String) :
    approveRewardPayload a = specifiedRequest "approve_and_transfer_reward" (.str a) := by
  simp only [approveRewardPayload, specifiedRequest, Payload.mk.injEq, and_true, true_and]
  decide

/-- A trace of the shared shape hands exactly one request to the wallet. -/
theorem signRequests_of_dispatch (env : Env) (aptos : AptosWallet)
    (effects : List Effect) (start : String) (payload : Payload)
    (failure : JsError → String) (success : Response → List Effect)
    (hsuccess : ∀ r p, Effect.callSignAndSubmitTransaction p ∉ success r)
    (he : effects =
      .setStatusMessage start ::
      .callSignAndSubmitTransaction payload ::
      match aptos.signAndSubmitTransaction payload with
      | .error e => [.setStatusMessage (failure e)]
      | .ok response =>
        .callWaitForTransaction response.hash ::
        match env.waitForTransaction response.hash with
        | .error e => [.setStatusMessage (failure e)]
        | .ok _ => success response) :
    (effects.filterMap fun e =>
      match e with
      | .callSignAndSubmitTransaction payload => some payload
      | _ => none) = [payload] := by
  subst he
  have hnone : ∀ r, ∀ a ∈ success r,
      (match a with
        | .callSignAndSubmitTransaction payload => some payload
        | _ => none) = none := by
    intro r a ha
    cases a <;> first | rfl | exact absurd ha (hsuccess r _)
  rcases hs : aptos.signAndSubmitTransaction payload with e1 | r
  · simp
  · rcases hw : env.waitForTransaction r.hash with e1 | u
    · simp [hw]
    · simp only [hw, List.filterMap_cons, List.cons.injEq, true_and,
        List.filterMap_eq_nil_iff]
      exact hnone r

/-- Past its guard, with a wallet extension present, a handler hands the specified
request, and only that one, to the wallet. -/
theorem signRequests_of_guard (op : Op) (s : State) (env : Env) (aptos : AptosWallet)
    (arg : Arg) (hguard : op.passesGuard s = true) (harg : op.argument s = some arg)
    (haptos : env.aptos = some aptos) :
    signRequests (op.run s env) = [specifiedRequest op.functionName arg] := by
  cases op
  · simp only [Op.passesGuard, Bool.and_eq_true] at hguard
    simp only [Op.argument, Option.some.injEq] at harg
    subst harg
    rw [Op.functionName, ← createCoursePayload_eq]
    exact signRequests_of_dispatch env aptos _ _ _
      (fun e => "Error creating course: " ++ e.message) _
      (fun r p => by cases s.wallet <;> simp)
      (createCourse_effects s env aptos hguard.1 hguard.2 haptos)
  · simp only [Op.passesGuard, Bool.and_eq_true] at hguard
    simp only [Op.argument, Option.map_eq_some'] at harg
    obtain ⟨w, hwal, rfl⟩ := harg
    rw [Op.functionName, ← enrollPayload_eq]
    exact signRequests_of_dispatch env aptos _ _ _
      (fun e => "Error enrolling in course: " ++ e.message) _
      (fun r p => by simp)
      (enrollInCourse_effects s env aptos w hguard.1 hguard.2 haptos hwal)
  · simp only [Op.passesGuard, Bool.and_eq_true] at hguard
    simp only [Op.argument, Option.some.injEq] at harg
    subst harg
    rw [Op.functionName, ← requestRewardPayload_eq]
    exact signRequests_of_dispatch env aptos _ _ _
      (fun e => "Error requesting reward: " ++ e.message) _
      (fun r p => by simp)
      (requestReward_effects s env aptos hguard.1.1 hguard.1.2 hguard.2 haptos)
  · simp only [Op.passesGuard, Bool.and_eq_true] at hguard
    simp only [Op.argument, Option.some.injEq] at harg
    subst harg
    rw [Op.functionName, ← approveRewardPayload_eq]
    exact signRequests_of_dispatch env aptos _ _ _
      (fun e => "Error approving reward: " ++ e.message) _
      (fun r p => by simp)
      (approveReward_effects s env aptos hguard.1.1 hguard.1.2 hguard.2 haptos)

/-- C6: in every state that passes the guard of an operation (with the wallet
extension present), the handler hands exactly one request to
`signAndSubmitTransaction`, and it is the specified one: function
`MODULE_ADDRESS::Reward::<name>`, no type arguments, and the single argument, where
(name, argument) is (`create_course`, `completionReward`) for `createCourse`,
(`enroll`, session address) for `enrollInCourse`,
(`request_course_completion_reward`, `courseCreatorAddress`) for `requestReward` and
(`approve_and_transfer_reward`, `studentAddress`) for `approveReward`. The request
depends on nothing else: any other guard-passing state with the same argument, under
any collaborators, yields the same request. -/
theorem request_as_specified (op : Op) (s : State) (env : Env) (aptos : AptosWallet)
    (arg : Arg) (hguard : op.passesGuard s = true) (harg : op.argument s = some arg)
    (haptos : env.aptos = some aptos) :
    signRequests (op.run s env) =
      [{ type := "entry_function_payload"
         function := MODULE_ADDRESS ++ "::Reward::" ++ op.functionName
         type_arguments := []
         arguments := [arg] }] ∧
    ∀ (s' : State) (env' : Env) (aptos' : AptosWallet),
      op.passesGuard s' = true → op.argument s' = some arg → env'.aptos = some aptos' →
      signRequests (op.run s' env') = signRequests (op.run s env) := by
  constructor
  · exact signRequests_of_guard op s env aptos arg hguard harg haptos
  · intro s' env' aptos' hguard' harg' haptos'
    rw [signRequests_of_guard op s env aptos arg hguard harg haptos,
      signRequests_of_guard op s' env' aptos' arg hguard' harg' haptos']

/-- An instance of `request_as_specified`: the request of `enrollInCourse` for the session
address `0xabc123`. -/
theorem request_as_specified_witness :
    Op.passesGuard .enrollInCourse connectedState = true ∧
    Op.argument .enrollInCourse connectedState = some (.str "0xabc123") ∧
    signRequests (Op.run .enrollInCourse connectedState sampleEnv) =
      [{ type := "entry_function_payload"
         function := MODULE_ADDRESS ++ "::Reward::" ++ "enroll"
         type_arguments := []
         arguments := [.str "0xabc123"] }] :=
  ⟨rfl, rfl,
    (request_as_specified .enrollInCourse connectedState sampleEnv
      (sampleWallet fun _ => .ok { hash := "0xa1" }) (.str "0xabc123") rfl rfl rfl).1⟩

/-! ## Where the handlers fall short -/

/-- C9 at the failing input: the user has typed a student address and cleared the
field again, so the input handler has stored `canonicalize "" = "0x"`. The guard of
`approveReward` tests only that the stored string is non-empty, so the call is not
rejected: the handler submits `approve_and_transfer_reward("0x")` and waits for it.
While the field has never been touched, the same call is rejected without any call
to the collaborators. -/
theorem approveReward_cleared_input_submits :
    clearedInputState.isConnected = true ∧
    clearedInputState.studentAddress = "0x" ∧
    (approveReward clearedInputState sampleEnv).effects =
      [.setStatusMessage "Approving reward transfer...",
       .callSignAndSubmitTransaction (approveRewardPayload "0x"),
       .callWaitForTransaction "0xa1",
       .setStatusMessage "Reward approved and sent! TX: 0xa1"] ∧
    (stateAfter clearedInputState (approveReward clearedInputState sampleEnv)).statusMessage ≠
      "Invalid student address or wallet not connected" ∧
    connectedState.studentAddress = "" ∧
    (approveReward connectedState sampleEnv).effects =
      [.setStatusMessage "Invalid student address or wallet not connected"] := by
  decide

/-- C10 at the failing input: on the first connect (`wallet` is still `null` in the
closure) the provider succeeds with address `abc123`, the session is stored with
`address = canonicalize "abc123"` and `isConnected = true`, but reading
`wallet.address` for the status message throws, and the status reported is the
connection-error one. On a later connect with another account the status carries
the address of the previous session. -/
theorem connectWallet_status_reads_stale_wallet :
    stateAfter initialState (connectWallet initialState sampleEnv) =
      { initialState with
        wallet := some { address := canonicalize "abc123", publicKey := "0xkey" }
        isConnected := true
        statusMessage := "Error connecting wallet: null has no property address" } ∧
    (stateAfter initialState (connectWallet initialState sampleEnv)).statusMessage ≠
      "Connected: " ++ canonicalize "abc123" ∧
    stateAfter connectedState (connectWallet connectedState otherAccountEnv) =
      { connectedState with
        wallet := some { address := canonicalize "0xdef456", publicKey := "0xkey2" }
        isConnected := true
        statusMessage := "Connected: 0xabc123" } ∧
    (stateAfter connectedState (connectWallet connectedState otherAccountEnv)).statusMessage ≠
      "Connected: " ++ canonicalize "0xdef456" := by
  decide

end Rewards
